import Mathlib

/-!
Threejs_Pepsi, `js/script.js`

A shallow embedding of the page script: the two render loops (`animate`,
`animateSecondCan`), the two pairs of model-load callbacks, the scroll-trigger
callbacks of the two scroll-bound timelines, and `createCircularText`.

Conventions of the embedding.

* The numbers of the 3D part (vector fields, tween values, the per-frame
  step) are IEEE-754 binary64 values (`Double`): a finite one is a whole
  multiple of `2^-1074`, and `+` rounds the exact sum to nearest, ties to even.
* The angles and lengths `createCircularText` writes into a CSS `transform`
  string are kept as the rational value of the expression that is printed.
* JavaScript strings are embedded as lists of code points (`List Char`), which
  is what the spread `[...text]` iterates over.
* The script's mutable variables and the objects they point to are passed
  explicitly as a state record (`Page`, `TextPage`); a function that can throw
  returns `Except JsError _`.
* Calls into three.js / GSAP / the console are recorded in the state (a counter
  or a list of recorded calls); what those libraries do afterwards is outside
  the script and is not modelled.
-/

namespace Pepsi

/-! ## Data model -/

/-- A thrown JavaScript value, or a value handed to an error callback. -/
abbrev JsError := String

/-! ### JavaScript numbers -/

set_option exponentiation.threshold 5000
set_option maxRecDepth 8000

/-- The integer part of the binary logarithm of `q`, for `1 ≤ q < 2 ^ 4096`, by
binary search on the exponent (4095 for larger `q`, far beyond the largest
finite number). -/
def floorLog2 (q : Nat) : Nat :=
  [2048, 1024, 512, 256, 128, 64, 32, 16, 8, 4, 2, 1].foldl
    (fun b s => if 2 ^ (b + s) ≤ q then b + s else b) 0

/-- Rounding of the non-negative rational `n / d`, counted in units of
`2^-1074`, to the binary64 grid, to nearest with ties to even: below `2 ^ 53`
units (subnormal numbers and the first normal binade) the grid is the whole
numbers of units, above it a value with `bits` binary digits is rounded to a
multiple of `2 ^ (bits - 53)`. The exponent is not bounded here; the overflow
test is in `Double.round`. -/
def roundUnits (n d : Nat) : Nat :=
  let q := n / d
  let bits := if q = 0 then 0 else floorLog2 q + 1
  let e := bits - 53
  let den := d * 2 ^ e
  let m := n / den
  let rem := n % den
  let r :=
    if 2 * rem < den then m
    else if den < 2 * rem then m + 1
    else if m % 2 = 0 then m
    else m + 1
  r * 2 ^ e

/-- A JavaScript number (IEEE-754 binary64). The finite value `finite u` is
`u * 2^-1074`; every operation below returns a representable `u`. The two
zeros are not told apart: they are equal under `===` and give the same sum with
any non-zero number. -/
inductive Double where
  | finite (units : Int)
  | infinity (negative : Bool)
  | nan
  deriving DecidableEq, Repr

/-- The number nearest to `± n / d` units: rounded by `roundUnits`, and
infinite once the rounded magnitude reaches `2 ^ 1024`, that is `2 ^ 2098` units. -/
def Double.round (negative : Bool) (n d : Nat) : Double :=
  let r := roundUnits n d
  if 2 ^ 2098 ≤ r then .infinity negative
  else .finite (if negative then -(r : Int) else (r : Int))

/-- The operator `+` on numbers: the exact sum, rounded. -/
def Double.add : Double → Double → Double
  | .finite a, .finite b => Double.round (decide (a + b < 0)) (a + b).natAbs 1
  | .finite _, .infinity s => .infinity s
  | .infinity s, .finite _ => .infinity s
  | .infinity s, .infinity t => if s = t then .infinity s else .nan
  | _, _ => .nan

/-- The operator `*` on numbers: the exact product, rounded. It is not used by
the script's render loops; it serves to state what an expression such as
`r + N * 0.005` evaluates to. -/
def Double.mul : Double → Double → Double
  | .finite a, .finite b =>
    Double.round (decide (a * b < 0)) (a * b).natAbs (2 ^ 1074)
  | .finite a, .infinity s => if a = 0 then .nan else .infinity (s != decide (a < 0))
  | .infinity s, .finite b => if b = 0 then .nan else .infinity (s != decide (b < 0))
  | .infinity s, .infinity t => .infinity (s != t)
  | _, _ => .nan

/-- The unary operator `-` on numbers. -/
def Double.neg : Double → Double
  | .finite a => .finite (-a)
  | .infinity s => .infinity (!s)
  | .nan => .nan

/-- The exact value of a finite number. -/
def Double.toRat? : Double → Option ℚ
  | .finite u => some (u / 2 ^ 1074)
  | _ => none

instance : Add Double := ⟨Double.add⟩

instance : Mul Double := ⟨Double.mul⟩

instance : Neg Double := ⟨Double.neg⟩

/-- A whole-number literal of the source. -/
instance (n : Nat) : OfNat Double n := ⟨Double.round false (n * 2 ^ 1074) 1⟩

/-- A decimal literal of the source, `mantissa * 10 ^ (± decimalExponent)`:
the number nearest to it. -/
instance : OfScientific Double where
  ofScientific mantissa exponentSign decimalExponent :=
    if exponentSign then Double.round false (mantissa * 2 ^ 1074) (10 ^ decimalExponent)
    else Double.round false (mantissa * 10 ^ decimalExponent * 2 ^ 1074) 1

/-- A three.js vector / Euler triple: the `x`, `y`, `z` fields the script touches. -/
structure Vec3 where
  x : Double
  y : Double
  z : Double
  deriving DecidableEq, Repr

/-- The method `set(x, y, z)` of a three.js vector. -/
def Vec3.set (_v : Vec3) (x y z : Double) : Vec3 := ⟨x, y, z⟩

/-- The root node of a loaded asset (`gltf.scene`): the three fields the script uses. -/
structure Object3D where
  position : Vec3
  rotation : Vec3
  scale : Vec3
  deriving DecidableEq, Repr

/-- What a scene holds: the objects passed to `scene.add`. -/
inductive SceneObject where
  | camera
  | ambientLight
  | directionalLight
  | gltfScene
  deriving DecidableEq, Repr

/-- The object a tween animates. -/
inductive TweenTarget where
  | modelPosition
  | modelRotation
  | modelScale
  deriving DecidableEq, Repr

/-- The arguments of one `gsap.to` / `timeline.to` call on a model vector: the
target values given (absent fields are not animated), duration, ease and the
position parameter (offset on the timeline). -/
structure Tween where
  target : TweenTarget
  x : Option Double
  y : Option Double
  z : Option Double
  duration : Double
  ease : String
  offset : Double
  deriving DecidableEq, Repr

/-- The script's global variables of lines 41-43 and 339. -/
structure Globals where
  model : Option Object3D
  isAutoRotating : Bool
  model2 : Option Object3D
  deriving DecidableEq, Repr

/-- The `scrollTrigger` configuration object of a timeline; a callback is a
closure over the script's global variables. -/
structure ScrollTriggerVars where
  trigger : String
  start : String
  stop : String
  scrub : Bool
  pin : Bool
  onEnter : Option (Globals → Globals)
  onLeaveBack : Option (Globals → Globals)
  onLeave : Option (Globals → Globals)

/-- A scroll-bound timeline: its scroll trigger and the tweens added with `to`. -/
structure Timeline where
  scrollTrigger : ScrollTriggerVars
  tweens : List Tween

/-- The state the script's 3D part reads and writes. -/
structure Page where
  globals : Globals
  /-- Children of `scene`. -/
  scene : List SceneObject
  /-- Children of `scene2`. -/
  scene2 : List SceneObject
  /-- Stand-alone `gsap.to` tweens on the model (the intro bounce). -/
  tweens : List Tween
  /-- Scroll-bound timelines created so far. -/
  timelines : List Timeline
  /-- Recorded `console.error(message, err)` calls. -/
  console : List (String × JsError)
  /-- Number of `requestAnimationFrame(animate)` calls. -/
  frameRequests : Nat
  /-- Number of `renderer.render(scene, camera)` calls. -/
  renderCalls : Nat
  /-- Number of `requestAnimationFrame(animateSecondCan)` calls. -/
  frameRequests2 : Nat
  /-- Number of `renderer2.render(scene2, camera2)` calls. -/
  renderCalls2 : Nat

/-- The state after the synchronous part of the script has run and before any
callback: no model, auto-rotation on, each scene holding its camera and lights. -/
def Page.initial : Page where
  globals := ⟨none, true, none⟩
  scene := [.camera, .ambientLight, .directionalLight]
  scene2 := [.camera, .ambientLight, .directionalLight]
  tweens := []
  timelines := []
  console := []
  frameRequests := 0
  renderCalls := 0
  frameRequests2 := 0
  renderCalls2 := 0

/-! ## Render loops (lines 195-204 and 356-365) -/

/-- JavaScript truthiness of a variable that holds `undefined` or an object. -/
def truthy (o : Option Object3D) : Bool := o.isSome

/-- Property access on the value of a variable: a `TypeError` when it is `undefined`. -/
def deref (o : Option Object3D) : Except JsError Object3D :=
  match o with
  | none => .error "TypeError: Cannot read properties of undefined"
  | some m => .ok m

/-- The statement `m.rotation.y += 0.005`. -/
def rotateStep (m : Object3D) : Object3D :=
  { m with rotation := { m.rotation with y := m.rotation.y + 0.005 } }

/-- One call of `animate` (lines 195-203). -/
def animate (s : Page) : Except JsError Page := do
  let s := { s with frameRequests := s.frameRequests + 1 }
  let s ←
    if truthy s.globals.model && s.globals.isAutoRotating then do
      let m ← deref s.globals.model
      pure { s with globals := { s.globals with model := some (rotateStep m) } }
    else
      pure s
  pure { s with renderCalls := s.renderCalls + 1 }

/-- One call of `animateSecondCan` (lines 356-364). -/
def animateSecondCan (s : Page) : Except JsError Page := do
  let s := { s with frameRequests2 := s.frameRequests2 + 1 }
  let s ←
    if truthy s.globals.model2 then do
      let m ← deref s.globals.model2
      pure { s with globals := { s.globals with model2 := some (rotateStep m) } }
    else
      pure s
  pure { s with renderCalls2 := s.renderCalls2 + 1 }

/-- The first `n` frames of a self-scheduling loop: each call schedules exactly
one further call, which the host runs on the next frame. A throw ends the run. -/
def frames (f : Page → Except JsError Page) : Nat → Page → Except JsError Page
  | 0, s => .ok s
  | n + 1, s => f s >>= frames f n

/-! ## Model loading and the scroll-bound timelines (lines 45-192 and 337-353) -/

/-- The intro bounce `gsap.to(model.position, ...)` of lines 56-60. -/
def introBounce : Tween :=
  ⟨.modelPosition, none, some (-0.7), none, 2, "bounce.out", 0⟩

/-- Timeline A, `tl` of lines 63-123, bound to `.scroll-section`. It has no
`onLeave` callback. The field `stop` is the key `end` of the source. -/
def tl : Timeline where
  scrollTrigger :=
    { trigger := ".scroll-section"
      start := "top center"
      stop := "bottom center"
      scrub := true
      pin := true
      onEnter := some (fun g => { g with isAutoRotating := false })
      onLeaveBack := some (fun g => { g with isAutoRotating := true })
      onLeave := none }
  tweens :=
    [ ⟨.modelScale, some 0.012, some 0.012, some 0.012, 0.5, "power2.out", 0⟩,
      ⟨.modelRotation, some 0.3, some 0.2, some (-0.3), 1.5, "power1.inOut", 0.3⟩,
      ⟨.modelPosition, some (-1.2), none, none, 1.2, "power2.inOut", 0.5⟩,
      ⟨.modelScale, some 0.009, some 0.009, some 0.009, 0.5, "power2.inOut", 0.8⟩ ]

/-- Timeline B, `tlBlue` of lines 126-186, bound to `.scroll-section-blue`. -/
def tlBlue : Timeline where
  scrollTrigger :=
    { trigger := ".scroll-section-blue"
      start := "top center"
      stop := "bottom center"
      scrub := true
      pin := true
      onEnter := some (fun g => { g with isAutoRotating := true })
      onLeaveBack := some (fun g => { g with isAutoRotating := true })
      onLeave := some (fun g => { g with isAutoRotating := false }) }
  tweens :=
    [ ⟨.modelRotation, some 0, some 0, some 0, 0.5, "power1.inOut", 0⟩,
      ⟨.modelPosition, some 1.2, none, none, 1.2, "power2.inOut", 0⟩,
      ⟨.modelScale, some 0.012, some 0.012, some 0.012, 0.6, "power2.out", 0⟩,
      ⟨.modelScale, some 0.009, some 0.009, some 0.009, 0.6, "power2.inOut", 0.6⟩ ]

/-- The scroll-trigger events for which the script registers callbacks. -/
inductive ScrollEvent where
  | onEnter
  | onLeaveBack
  | onLeave
  deriving DecidableEq, Repr

/-- The callback a scroll trigger holds for an event, if any. -/
def ScrollTriggerVars.callback (v : ScrollTriggerVars) : ScrollEvent → Option (Globals → Globals)
  | .onEnter => v.onEnter
  | .onLeaveBack => v.onLeaveBack
  | .onLeave => v.onLeave

/-- The scroll trigger of timeline `t` fires event `e`: its callback runs if it
has one, otherwise nothing happens. -/
def fire (t : Timeline) (e : ScrollEvent) (s : Page) : Page :=
  match t.scrollTrigger.callback e with
  | some f => { s with globals := f s.globals }
  | none => s

/-- The success callback of `loader.load` (lines 49-187), given `gltf.scene`. -/
def onLoad (gltfScene : Object3D) (s : Page) : Page :=
  let model := gltfScene
  let model := { model with scale := model.scale.set 0.009 0.009 0.009 }
  let model := { model with position := model.position.set 0 1 0 }
  { s with
    globals := { s.globals with model := some model }
    scene := s.scene ++ [.gltfScene]
    tweens := s.tweens ++ [introBounce]
    timelines := s.timelines ++ [tl, tlBlue] }

/-- The error callback of `loader.load` (lines 189-191). -/
def onLoadError (err : JsError) (s : Page) : Except JsError Page :=
  pure { s with console := s.console ++ [("Failed to load model:", err)] }

/-- The success callback of `loader2.load` (lines 343-348), given `gltf.scene`. -/
def onLoad2 (gltfScene : Object3D) (s : Page) : Page :=
  let model2 := gltfScene
  let model2 := { model2 with scale := model2.scale.set 0.010 0.010 0.010 }
  let model2 := { model2 with position := model2.position.set 0 1 0 }
  { s with
    globals := { s.globals with model2 := some model2 }
    scene2 := s.scene2 ++ [.gltfScene] }

/-- The error callback of `loader2.load` (lines 350-352). -/
def onLoadError2 (err : JsError) (s : Page) : Except JsError Page :=
  pure { s with console := s.console ++ [("Failed to load second model:", err)] }

/-! ## `createCircularText` (lines 258-289) -/

/-- JavaScript string: a list of code points. -/
abbrev JsString := List Char

/-- One function of a CSS `transform` value; angles in degrees, lengths in pixels. -/
inductive TransformFn where
  | rotate (deg : ℚ)
  | translate (px : ℚ)
  deriving DecidableEq, Repr

/-- The inline style properties the script assigns. An unset property is `""`,
an unset transform the empty list. -/
structure Style where
  position : String
  height : String
  width : String
  left : String
  top : String
  transformOrigin : String
  transform : List TransformFn
  deriving DecidableEq, Repr

/-- The inline style of a freshly created element. -/
def Style.empty : Style := ⟨"", "", "", "", "", "", []⟩

/-- A DOM node: a text node or an element with its child nodes. -/
inductive Node where
  | text (data : JsString)
  | element (tagName : String) (style : Style) (childNodes : List Node)

/-- A DOM element (what `querySelector` and `createElement` return). -/
structure Element where
  tagName : String
  style : Style
  childNodes : List Node

/-- An element seen as a node. -/
def Element.toNode (e : Element) : Node := .element e.tagName e.style e.childNodes

mutual
/-- The getter `textContent` of a node: a text node's data, an element's
concatenated descendant text. -/
def Node.textContent : Node → JsString
  | .text data => data
  | .element _ _ childNodes => textContentOfList childNodes
/-- Concatenation of the `textContent` of the nodes of a list. -/
def textContentOfList : List Node → JsString
  | [] => []
  | n :: ns => n.textContent ++ textContentOfList ns
end

/-- The getter `textContent` of an element. -/
def Element.textContent (e : Element) : JsString := textContentOfList e.childNodes

/-- The setter `textContent` of an element: all children are removed and, unless
the value is the empty string, one text node holding the value is inserted. -/
def Element.setTextContent (e : Element) (value : JsString) : Element :=
  { e with childNodes := if value = [] then [] else [.text value] }

/-- The method `appendChild`, for a child not yet in the document. -/
def Element.appendChild (e : Element) (child : Element) : Element :=
  { e with childNodes := e.childNodes ++ [child.toNode] }

/-- The call `document.createElement(tagName)`. -/
def createElement (tagName : String) : Element := ⟨tagName, Style.empty, []⟩

/-- White space and line terminators of ECMAScript, as code points: what
`String.prototype.trim` strips. -/
def isWhiteSpace (c : Char) : Bool :=
  let n := c.toNat
  n == 0x09 || n == 0x0A || n == 0x0B || n == 0x0C || n == 0x0D || n == 0x20 ||
  n == 0xA0 || n == 0x1680 || (0x2000 ≤ n && n ≤ 0x200A) || n == 0x2028 ||
  n == 0x2029 || n == 0x202F || n == 0x205F || n == 0x3000 || n == 0xFEFF

/-- The method `trimStart`. -/
def trimStart (s : JsString) : JsString := s.dropWhile isWhiteSpace

/-- The method `trimEnd`. -/
def trimEnd (s : JsString) : JsString := (s.reverse.dropWhile isWhiteSpace).reverse

/-- The method `trim`. -/
def trim (s : JsString) : JsString := trimEnd (trimStart s)

/-- The arguments of the `gsap.to(container, ...)` call of lines 282-288. -/
structure ContainerTween where
  rotation : ℚ
  duration : ℚ
  ease : String
  repeats : Int
  transformOrigin : String
  deriving DecidableEq, Repr

/-- The part of the document `createCircularText` works on: the element the
selector resolves to (`none` when `querySelector` returns `null`) and the
tweens registered on it. -/
structure TextPage where
  container : Option Element
  tweens : List ContainerTween

/-- The value of the template literal of lines 276-277 read as a CSS transform
list. The third function is written `rotate(-` followed by the number
`i * angleStep`, which is never negative, so it rotates by its opposite. -/
def spanTransform (i : Nat) (angleStep radius : ℚ) : List TransformFn :=
  [.rotate (i * angleStep), .translate radius, .rotate (-(i * angleStep))]

/-- The body of the `forEach` callback (lines 267-278) up to `appendChild`: the
span built for character `char` at index `i`. -/
def makeSpan (angleStep radius : ℚ) (i : Nat) (char : Char) : Element :=
  let span := createElement "span"
  let span := span.setTextContent [char]
  { span with
    style :=
      { span.style with
        position := "absolute"
        height := "20px"
        width := "20px"
        left := "50%"
        top := "50%"
        transformOrigin := "0 50%"
        transform := spanTransform i angleStep radius } }

/-- The function `createCircularText` (lines 258-289), on the element its
selector resolves to. -/
def createCircularText (d : TextPage) (radius : ℚ := 130) : Except JsError TextPage := do
  let container ← match d.container with
    | none => throw "TypeError: Cannot read properties of null"
    | some c => pure c
  let text := trim container.textContent
  let container := container.setTextContent []
  let characters : List Char := text
  let angleStep : ℚ := 360 / characters.length
  let container := characters.enum.foldl
    (fun c p => c.appendChild (makeSpan angleStep radius p.1 p.2)) container
  pure
    { container := some container
      tweens := d.tweens ++ [⟨360, 15, "linear", -1, "50% 50%"⟩] }

/-! ## Reading a CSS transform list -/

/-- The angle by which a transform list turns the element: rotations of the
plane compose by adding their angles and a translation does not turn. -/
def netRotation : List TransformFn → ℚ
  | [] => 0
  | .rotate deg :: fs => deg + netRotation fs
  | .translate _ :: fs => netRotation fs

/-! ## Concrete inputs -/

/-- A loaded asset root as the loader hands it over: at the origin, unrotated,
unit scale. -/
def loadedAsset : Object3D := ⟨⟨0, 0, 0⟩, ⟨0, 0, 0⟩, ⟨1, 1, 1⟩⟩

/-- A container element holding the given text as its only child node. -/
def textContainer (t : String) : Element := ⟨"div", Style.empty, [.text t.toList]⟩

/-- The child list `createCircularText` leaves in the container for the trimmed
text `text`: the span of each character, in order (see `createCircularText_eq`). -/
def circularSpans (text : JsString) (radius : ℚ) : List Node :=
  text.enum.map (fun p => (makeSpan (360 / text.length) radius p.1 p.2).toNode)

/-! ## Helper lemmas: render loops -/

theorem animate_eq (s : Page) :
    animate s = .ok
      { s with
        globals :=
          { s.globals with
            model := if s.globals.isAutoRotating then s.globals.model.map rotateStep
                     else s.globals.model }
        frameRequests := s.frameRequests + 1
        renderCalls := s.renderCalls + 1 } := by
  rcases s with ⟨⟨model, flag, model2⟩, sc, sc2, tw, tls, con, fr, rc, fr2, rc2⟩
  cases model <;> cases flag <;> rfl

theorem animateSecondCan_eq (s : Page) :
    animateSecondCan s = .ok
      { s with
        globals := { s.globals with model2 := s.globals.model2.map rotateStep }
        frameRequests2 := s.frameRequests2 + 1
        renderCalls2 := s.renderCalls2 + 1 } := by
  rcases s with ⟨⟨model, flag, model2⟩, sc, sc2, tw, tls, con, fr, rc, fr2, rc2⟩
  cases model2 <;> rfl

theorem frames_succ (f : Page → Except JsError Page) (n : Nat) (s s1 : Page)
    (h : f s = .ok s1) : frames f (n + 1) s = frames f n s1 := by
  simp [frames, h, bind, Except.bind]

theorem frames_animate (N : Nat) (s : Page) :
    frames animate N s = .ok
      { s with
        globals :=
          { s.globals with
            model := if s.globals.isAutoRotating then s.globals.model.map rotateStep^[N]
                     else s.globals.model }
        frameRequests := s.frameRequests + N
        renderCalls := s.renderCalls + N } := by
  induction N generalizing s with
  | zero =>
    rcases s with ⟨⟨model, flag, model2⟩, sc, sc2, tw, tls, con, fr, rc, fr2, rc2⟩
    cases model <;> cases flag <;> rfl
  | succ n ih =>
    rw [frames_succ _ _ _ _ (animate_eq s), ih]
    rcases s with ⟨⟨model, flag, model2⟩, sc, sc2, tw, tls, con, fr, rc, fr2, rc2⟩
    cases model <;> cases flag <;>
      simp [Function.iterate_succ, Nat.add_assoc, Nat.add_comm 1 n]

theorem frames_animateSecondCan (N : Nat) (s : Page) :
    frames animateSecondCan N s = .ok
      { s with
        globals := { s.globals with model2 := s.globals.model2.map rotateStep^[N] }
        frameRequests2 := s.frameRequests2 + N
        renderCalls2 := s.renderCalls2 + N } := by
  induction N generalizing s with
  | zero =>
    rcases s with ⟨⟨model, flag, model2⟩, sc, sc2, tw, tls, con, fr, rc, fr2, rc2⟩
    cases model2 <;> rfl
  | succ n ih =>
    rw [frames_succ _ _ _ _ (animateSecondCan_eq s), ih]
    rcases s with ⟨⟨model, flag, model2⟩, sc, sc2, tw, tls, con, fr, rc, fr2, rc2⟩
    cases model2 <;>
      simp [Function.iterate_succ, Nat.add_assoc, Nat.add_comm 1 n]

theorem rotateStep_iterate (N : Nat) (m : Object3D) :
    rotateStep^[N] m =
      { m with
        rotation :=
          { m.rotation with y := (fun y : Double => y + 0.005)^[N] m.rotation.y } } := by
  induction N generalizing m with
  | zero => rfl
  | succ n ih =>
    rw [Function.iterate_succ_apply, ih, Function.iterate_succ_apply]
    rfl

/-! ## Render loops: the claims -/

/-- C1, refuted: after a successful load from the initial page the model's
`rotation.y` is 0 and the flag is true, and six calls of `animate` leave
`rotation.y` at `553402322211286592 * 2^-64` (printed 0.030000000000000002).
That is not `0 + 6 * 0.005` in exact arithmetic, whether 0.005 is read as the
decimal or as the number the literal denotes, and it is not the number the
expression `0 + 6 * 0.005` evaluates to either. -/
theorem animate_rotation_not_exact :
    (onLoad loadedAsset Page.initial).globals.isAutoRotating = true ∧
    ∃ s' m m', (onLoad loadedAsset Page.initial).globals.model = some m ∧
      m.rotation.y = 0 ∧
      frames animate 6 (onLoad loadedAsset Page.initial) = .ok s' ∧
      s'.globals.model = some m' ∧
      m'.rotation.y = .finite ((553402322211286592 * 2 ^ 1010 : Nat) : Int) ∧
      m'.rotation.y.toRat? ≠ some (0 + (6 : ℕ) * 0.005) ∧
      m'.rotation.y.toRat? ≠ (0.005 : Double).toRat?.map (fun c => 0 + (6 : ℕ) * c) ∧
      m'.rotation.y ≠ 0 + 6 * 0.005 := by
  have hy : (rotateStep^[6] ⟨⟨0, 1, 0⟩, ⟨0, 0, 0⟩, ⟨0.009, 0.009, 0.009⟩⟩).rotation.y =
      .finite ((553402322211286592 * 2 ^ 1010 : Nat) : Int) := by decide
  have hc : (0.005 : Double) = .finite ((5764607523034235 * 2 ^ 1014 : Nat) : Int) := by
    decide
  refine ⟨rfl, _, ⟨⟨0, 1, 0⟩, ⟨0, 0, 0⟩, ⟨0.009, 0.009, 0.009⟩⟩,
    rotateStep^[6] ⟨⟨0, 1, 0⟩, ⟨0, 0, 0⟩, ⟨0.009, 0.009, 0.009⟩⟩, rfl, rfl,
    frames_animate 6 _, rfl, hy, ?_, ?_, ?_⟩
  · rw [hy]
    simp only [Double.toRat?]
    norm_num
  · rw [hy, hc]
    simp only [Double.toRat?, Option.map]
    norm_num
  · rw [hy]
    decide

/-- C1, amended. With a model loaded in `model` and `isAutoRotating` true, `N`
successive calls of `animate` return normally, leave the flag true and leave
the model with `rotation.y` equal to the result of adding the number 0.005 to
its value before `N` times, each sum rounded to the nearest number; the loop
applies no wrapping. -/
theorem animate_rotation_after_frames (s : Page) (m : Object3D) (N : Nat)
    (hm : s.globals.model = some m) (hf : s.globals.isAutoRotating = true) :
    ∃ s' m', frames animate N s = .ok s' ∧ s'.globals.model = some m' ∧
      m'.rotation.y = (fun y : Double => y + 0.005)^[N] m.rotation.y ∧
      s'.globals.isAutoRotating = true := by
  refine ⟨_, rotateStep^[N] m, frames_animate N s, ?_, ?_, hf⟩
  · simp [hm, hf]
  · rw [rotateStep_iterate]

/-- C1, amended, at the state reached by a successful load from the initial
page, for three frames: `rotation.y` ends at `276701161105643264 * 2^-64`
(printed 0.015). -/
theorem animate_rotation_after_frames_witness :
    (onLoad loadedAsset Page.initial).globals.model =
        some ⟨⟨0, 1, 0⟩, ⟨0, 0, 0⟩, ⟨0.009, 0.009, 0.009⟩⟩ ∧
      (onLoad loadedAsset Page.initial).globals.isAutoRotating = true ∧
      (∃ s' m', frames animate 3 (onLoad loadedAsset Page.initial) = .ok s' ∧
        s'.globals.model = some m' ∧
        m'.rotation.y = (fun y : Double => y + 0.005)^[3] (0 : Double) ∧
        s'.globals.isAutoRotating = true) ∧
      (fun y : Double => y + 0.005)^[3] (0 : Double) =
        .finite ((276701161105643264 * 2 ^ 1010 : Nat) : Int) :=
  ⟨rfl, rfl,
    animate_rotation_after_frames (onLoad loadedAsset Page.initial)
      ⟨⟨0, 1, 0⟩, ⟨0, 0, 0⟩, ⟨0.009, 0.009, 0.009⟩⟩ 3 rfl rfl,
    by decide⟩

/-- C3. With no model loaded, `N` frames of either render loop return normally
(the absent model is never dereferenced), call the renderer exactly `N` times
and leave the model variable absent, whatever the auto-rotate flag. -/
theorem render_loops_tolerate_absent_model :
    (∀ (s : Page) (N : Nat), s.globals.model = none →
      ∃ s', frames animate N s = .ok s' ∧ s'.renderCalls = s.renderCalls + N ∧
        s'.globals.model = none) ∧
    (∀ (s : Page) (N : Nat), s.globals.model2 = none →
      ∃ s', frames animateSecondCan N s = .ok s' ∧
        s'.renderCalls2 = s.renderCalls2 + N ∧ s'.globals.model2 = none) := by
  refine ⟨fun s N h => ⟨_, frames_animate N s, rfl, ?_⟩,
    fun s N h => ⟨_, frames_animateSecondCan N s, rfl, ?_⟩⟩
  · simp [h]
  · simp [h]

/-- C3, at the initial page (no model in either context) for five frames. -/
theorem render_loops_tolerate_absent_model_witness :
    (∃ s', frames animate 5 Page.initial = .ok s' ∧ s'.renderCalls = 0 + 5 ∧
        s'.globals.model = none) ∧
    (∃ s', frames animateSecondCan 5 Page.initial = .ok s' ∧
        s'.renderCalls2 = 0 + 5 ∧ s'.globals.model2 = none) :=
  ⟨render_loops_tolerate_absent_model.1 Page.initial 5 rfl,
    render_loops_tolerate_absent_model.2 Page.initial 5 rfl⟩

/-- C10. One call of `animate` returns normally, renders once, leaves
`isAutoRotating`, `model2` and the presence of `model` as they were, and of a
present model changes at most `rotation.y` (position, scale, `rotation.x` and
`rotation.z` are kept), and that only when the flag is true. Hence with the flag
false `N` frames leave all the variables, the model included, unchanged while
the renderer is called `N` times. -/
theorem animate_frame_effect :
    (∀ s : Page, ∃ s', animate s = .ok s' ∧
      s'.globals.isAutoRotating = s.globals.isAutoRotating ∧
      s'.globals.model2 = s.globals.model2 ∧
      s'.renderCalls = s.renderCalls + 1 ∧
      (s.globals.model = none → s'.globals.model = none) ∧
      (∀ m, s.globals.model = some m → ∃ m', s'.globals.model = some m' ∧
        m'.position = m.position ∧ m'.scale = m.scale ∧
        m'.rotation.x = m.rotation.x ∧ m'.rotation.z = m.rotation.z ∧
        (m'.rotation.y ≠ m.rotation.y → s.globals.isAutoRotating = true))) ∧
    (∀ (s : Page) (N : Nat), s.globals.isAutoRotating = false →
      ∃ s', frames animate N s = .ok s' ∧ s'.globals = s.globals ∧
        s'.renderCalls = s.renderCalls + N) := by
  constructor
  · intro s
    refine ⟨_, animate_eq s, rfl, rfl, rfl, ?_, ?_⟩
    · intro h
      simp [h]
    · intro m hm
      cases hf : s.globals.isAutoRotating
      · exact ⟨m, by simp [hm, hf], rfl, rfl, rfl, rfl, fun h => absurd rfl h⟩
      · exact ⟨rotateStep m, by simp [hm, hf], rfl, rfl, rfl, rfl, fun _ => rfl⟩
  · intro s N hf
    refine ⟨_, frames_animate N s, ?_, rfl⟩
    rcases s with ⟨⟨model, flag, model2⟩, sc, sc2, tw, tls, con, fr, rc, fr2, rc2⟩
    simp only at hf
    subst hf
    rfl

/-- C10, at a loaded page whose flag a scroll callback has switched off: seven
frames leave the variables as they were and render seven times. -/
theorem animate_frame_effect_witness :
    ∃ s', frames animate 7 (fire tl .onEnter (onLoad loadedAsset Page.initial)) = .ok s' ∧
      s'.globals = (fire tl .onEnter (onLoad loadedAsset Page.initial)).globals ∧
      s'.renderCalls = 0 + 7 :=
  animate_frame_effect.2 (fire tl .onEnter (onLoad loadedAsset Page.initial)) 7 rfl

/-! ## Scroll-trigger callbacks: the claims -/

/-- C2. Whatever the flag was, after a scroll-trigger callback it depends only
on the callback: timeline A's `onEnter` leaves it false and its `onLeaveBack`
true; timeline B's `onEnter` and `onLeaveBack` leave it true and its `onLeave`
false. So after a callback of timeline B the flag is true exactly when the
callback is not `onLeave`. -/
theorem scroll_callbacks_set_flag (s : Page) :
    (fire tl .onEnter s).globals.isAutoRotating = false ∧
    (fire tl .onLeaveBack s).globals.isAutoRotating = true ∧
    (fire tlBlue .onEnter s).globals.isAutoRotating = true ∧
    (fire tlBlue .onLeaveBack s).globals.isAutoRotating = true ∧
    (fire tlBlue .onLeave s).globals.isAutoRotating = false ∧
    (∀ e : ScrollEvent,
      (fire tlBlue e s).globals.isAutoRotating = true ↔ e ≠ .onLeave) := by
  refine ⟨rfl, rfl, rfl, rfl, rfl, fun e => ?_⟩
  cases e <;> simp [fire, tlBlue, ScrollTriggerVars.callback]

/-- C7, refuted: with the flag true, timeline B's `onLeave` callback leaves it
false. -/
theorem tlBlue_onLeave_clears_flag :
    Page.initial.globals.isAutoRotating = true ∧
      ¬ (fire tlBlue .onLeave Page.initial).globals.isAutoRotating = true := by
  decide

/-- C7, amended. Of timeline B's three callbacks, `onEnter` and `onLeaveBack`
leave the flag true and `onLeave` leaves it false, whatever it was before. -/
theorem tlBlue_callbacks (s : Page) :
    (fire tlBlue .onEnter s).globals.isAutoRotating = true ∧
    (fire tlBlue .onLeaveBack s).globals.isAutoRotating = true ∧
    (fire tlBlue .onLeave s).globals.isAutoRotating = false :=
  ⟨rfl, rfl, rfl⟩

/-! ## Load failure: the claim -/

/-- C4. In each context the load-error callback returns normally and appends
exactly one entry to the console, whose message names the context
(`Failed to load model:` or `Failed to load second model:`) and which carries
the error value; the variables (so both model references, unset if they were
unset), both scenes, the tweens, the timelines and the frame and render counters
are as before. The two messages differ. -/
theorem load_error_only_logs (err : JsError) (s : Page) :
    (∃ s', onLoadError err s = .ok s' ∧
      s'.console = s.console ++ [("Failed to load model:", err)] ∧
      s'.globals = s.globals ∧ s'.scene = s.scene ∧ s'.scene2 = s.scene2 ∧
      s'.tweens = s.tweens ∧ s'.timelines = s.timelines ∧
      s'.frameRequests = s.frameRequests ∧ s'.renderCalls = s.renderCalls ∧
      s'.frameRequests2 = s.frameRequests2 ∧ s'.renderCalls2 = s.renderCalls2) ∧
    (∃ s', onLoadError2 err s = .ok s' ∧
      s'.console = s.console ++ [("Failed to load second model:", err)] ∧
      s'.globals = s.globals ∧ s'.scene = s.scene ∧ s'.scene2 = s.scene2 ∧
      s'.tweens = s.tweens ∧ s'.timelines = s.timelines ∧
      s'.frameRequests = s.frameRequests ∧ s'.renderCalls = s.renderCalls ∧
      s'.frameRequests2 = s.frameRequests2 ∧ s'.renderCalls2 = s.renderCalls2) ∧
    "Failed to load model:" ≠ "Failed to load second model:" :=
  ⟨⟨_, rfl, rfl, rfl, rfl, rfl, rfl, rfl, rfl, rfl, rfl, rfl⟩,
    ⟨_, rfl, rfl, rfl, rfl, rfl, rfl, rfl, rfl, rfl, rfl, rfl⟩, by decide⟩

/-- C4, at the initial page with the error value `404`: one console entry, the
model still unset, the scene still only camera and lights, no timeline. -/
theorem load_error_only_logs_witness :
    ∃ s', onLoadError "404" Page.initial = .ok s' ∧
      s'.console = [("Failed to load model:", "404")] ∧ s'.globals.model = none ∧
      s'.scene = [.camera, .ambientLight, .directionalLight] ∧
      s'.timelines.length = 0 := by
  obtain ⟨s', h, hc, hg, hs, _, _, ht, _⟩ := (load_error_only_logs "404" Page.initial).1
  exact ⟨s', h, by rw [hc]; rfl, by rw [hg]; rfl, by rw [hs]; rfl, by rw [ht]; rfl⟩

/-! ## Helper lemmas: `createCircularText` -/

theorem foldl_appendChild (mk : Nat → Char → Element) (l : List (Nat × Char)) (c : Element) :
    l.foldl (fun c p => c.appendChild (mk p.1 p.2)) c =
      { c with childNodes := c.childNodes ++ l.map (fun p => (mk p.1 p.2).toNode) } := by
  induction l generalizing c with
  | nil => simp
  | cons p l ih =>
    simp only [List.foldl_cons, ih, List.map_cons]
    simp [Element.appendChild]

theorem createCircularText_eq (c : Element) (tw : List ContainerTween) (radius : ℚ) :
    createCircularText ⟨some c, tw⟩ radius = .ok
      { container := some { c with childNodes := circularSpans (trim c.textContent) radius }
        tweens := tw ++ [⟨360, 15, "linear", -1, "50% 50%"⟩] } := by
  simp only [createCircularText, bind, Except.bind, pure, Except.pure, foldl_appendChild]
  simp [Element.setTextContent, circularSpans]

theorem createCircularText_null (tw : List ContainerTween) (radius : ℚ) :
    createCircularText ⟨none, tw⟩ radius =
      .error "TypeError: Cannot read properties of null" := rfl

theorem textContent_makeSpan (a r : ℚ) (i : Nat) (ch : Char) :
    (makeSpan a r i ch).toNode.textContent = [ch] := by
  simp [makeSpan, Element.toNode, Node.textContent, textContentOfList, createElement,
    Element.setTextContent]

theorem textContentOfList_spans (a r : ℚ) (l : List (Nat × Char)) :
    textContentOfList (l.map (fun p => (makeSpan a r p.1 p.2).toNode)) = l.map Prod.snd := by
  induction l with
  | nil => simp [textContentOfList]
  | cons p l ih => simp [textContentOfList, textContent_makeSpan, ih]

theorem textContentOfList_circularSpans (text : JsString) (radius : ℚ) :
    textContentOfList (circularSpans text radius) = text := by
  rw [circularSpans, textContentOfList_spans]
  simp [List.enum, List.enumFrom_map_snd]

theorem trimEnd_eq_rdropWhile (s : JsString) : trimEnd s = s.rdropWhile isWhiteSpace := rfl

theorem trimStart_trim (s : JsString) : trimStart (trim s) = trim s := by
  unfold trim trimStart
  rw [trimEnd_eq_rdropWhile, List.dropWhile_eq_self_iff]
  intro hl
  have hpre := List.rdropWhile_prefix isWhiteSpace (List.dropWhile isWhiteSpace s)
  have hpos : 0 < (List.dropWhile isWhiteSpace s).length :=
    Nat.lt_of_lt_of_le hl hpre.length_le
  have h0 := List.dropWhile_get_zero_not isWhiteSpace s hpos
  have heq := hpre.getElem hl
  simp only [List.get_eq_getElem] at h0 ⊢
  rw [heq]
  exact h0

theorem trim_trim (s : JsString) : trim (trim s) = trim s := by
  conv_lhs => rw [trim, trimStart_trim]
  rw [trim, trimEnd_eq_rdropWhile, trimEnd_eq_rdropWhile, List.rdropWhile_idempotent]

theorem length_circularSpans (text : JsString) (radius : ℚ) :
    (circularSpans text radius).length = text.length := by
  simp [circularSpans]

theorem getElem?_circularSpans (text : JsString) (radius : ℚ) (i : Nat) (h : i < text.length) :
    (circularSpans text radius)[i]? =
      some (makeSpan (360 / text.length) radius i (text.get ⟨i, h⟩)).toNode := by
  simp [circularSpans, List.enum, List.getElem?_enumFrom, List.getElem?_eq_getElem h]

/-! ## `createCircularText`: the claims -/

/-- C5, refuted: a container whose text is a space followed by `A` has text of
length 2, and `createCircularText` leaves it with one child, not two: the text
is trimmed before it is split. -/
theorem createCircularText_counts_trimmed_text :
    (textContainer " A").textContent.length = 2 ∧
      ∃ d c', createCircularText ⟨some (textContainer " A"), []⟩ 130 = .ok d ∧
        d.container = some c' ∧ c'.childNodes.length = 1 ∧
        c'.childNodes.length ≠ (textContainer " A").textContent.length := by
  refine ⟨by decide, _, _, createCircularText_eq _ _ _, rfl, ?_, ?_⟩ <;> decide

/-- C5, amended. For every container, with `L` the length in code points of its
text after trimming, `createCircularText` returns normally and replaces the
container's content with exactly `L` children; for every `i < L` the `i`-th
child is a `span` holding the `i`-th character of the trimmed text, positioned
`absolute`, whose transform starts with a rotation by `i * (360 / L)` degrees
followed by a translation by the given radius. -/
theorem createCircularText_children (c : Element) (tw : List ContainerTween) (radius : ℚ) :
    ∃ d c', createCircularText ⟨some c, tw⟩ radius = .ok d ∧ d.container = some c' ∧
      c'.childNodes.length = (trim c.textContent).length ∧
      ∀ (i : Nat) (h : i < (trim c.textContent).length), ∃ st rest,
        c'.childNodes[i]? =
          some (.element "span" st [.text [(trim c.textContent).get ⟨i, h⟩]]) ∧
        st.position = "absolute" ∧
        st.transform =
          .rotate (i * (360 / (trim c.textContent).length)) :: .translate radius :: rest := by
  refine ⟨_, _, createCircularText_eq c tw radius, rfl, length_circularSpans _ _, ?_⟩
  intro i h
  refine ⟨(makeSpan (360 / (trim c.textContent).length) radius i
      ((trim c.textContent).get ⟨i, h⟩)).style,
    [.rotate (-(i * (360 / (trim c.textContent).length)))], ?_, rfl, rfl⟩
  simp only [getElem?_circularSpans _ _ i h]
  rfl

/-- C5, amended, at a container whose text is `AB` between two spaces: two
children, the second one rotated by `1 * (360 / 2)` degrees then moved out by 130. -/
theorem createCircularText_children_witness :
    ∃ d c', createCircularText ⟨some (textContainer " AB "), []⟩ 130 = .ok d ∧
      d.container = some c' ∧
      c'.childNodes.length = (trim (textContainer " AB ").textContent).length ∧
      ∀ (i : Nat) (h : i < (trim (textContainer " AB ").textContent).length), ∃ st rest,
        c'.childNodes[i]? =
          some (.element "span" st
            [.text [(trim (textContainer " AB ").textContent).get ⟨i, h⟩]]) ∧
        st.position = "absolute" ∧
        st.transform =
          .rotate (i * (360 / (trim (textContainer " AB ").textContent).length)) ::
            .translate 130 :: rest :=
  createCircularText_children (textContainer " AB ") [] 130

/-- C8, the code at the text `AB`, radius 130: the second character is placed at
`1 * (360 / 2) = 180` degrees and its transform is
`rotate(180deg) translate(130px) rotate(-180deg)`, whose rotations add up to 0,
which is not 180 and differs from it by no multiple of a full turn. The comment
of line 269 has each letter rotated by `angleStep * index`. -/
theorem circular_text_letter_not_turned :
    ∃ d c' st ch, createCircularText ⟨some (textContainer "AB"), []⟩ 130 = .ok d ∧
      d.container = some c' ∧ c'.childNodes[1]? = some (.element "span" st ch) ∧
      st.transform = [.rotate 180, .translate 130, .rotate (-180)] ∧
      netRotation st.transform = 0 ∧ ((1 : ℕ) : ℚ) * (360 / ((2 : ℕ) : ℚ)) = 180 ∧
      ∀ k : ℤ, netRotation st.transform ≠ 180 + 360 * k := by
  have hL : (trim (textContainer "AB").textContent).length = 2 := by decide
  have hi : 1 < (trim (textContainer "AB").textContent).length := by decide
  refine ⟨_, _,
    (makeSpan (360 / (trim (textContainer "AB").textContent).length) 130 1 'B').style,
    [.text ['B']], createCircularText_eq _ _ _, rfl, ?_, ?_, ?_, by norm_num, ?_⟩
  · simp only [getElem?_circularSpans _ _ 1 hi]
    rfl
  · simp only [makeSpan, spanTransform, hL]
    norm_num
  · simp [makeSpan, spanTransform, netRotation]
  · intro k hk
    simp only [makeSpan, spanTransform, netRotation] at hk
    have h2 : (2 * k + 1 : ℚ) = 0 := by linarith
    have h3 : (2 * k + 1 : ℤ) = 0 := by exact_mod_cast h2
    omega

/-- C9, refuted: after `createCircularText` has run on a container with text
`AB`, the container's text content is still `AB`, and a second call leaves it
with two children, not zero. -/
theorem createCircularText_second_call_not_empty :
    ∃ d1 c1 d2 c2, createCircularText ⟨some (textContainer "AB"), []⟩ 130 = .ok d1 ∧
      d1.container = some c1 ∧ c1.textContent = ['A', 'B'] ∧
      createCircularText d1 130 = .ok d2 ∧ d2.container = some c2 ∧
      c2.childNodes.length = 2 ∧ c2.childNodes.length ≠ 0 := by
  refine ⟨_, _, _, _, createCircularText_eq _ _ _, rfl, ?_, createCircularText_eq _ _ _, rfl,
    ?_, ?_⟩
  · simp only [Element.textContent, textContentOfList_circularSpans]
    decide
  · simp only [length_circularSpans, Element.textContent, textContentOfList_circularSpans,
      trim_trim]
    decide
  · simp only [length_circularSpans, Element.textContent, textContentOfList_circularSpans,
      trim_trim]
    decide

/-- C9, amended. Once `createCircularText` has run on a container, the
container's text content (the concatenation of the text of its children) is the
trimmed original text, so a second call on it reads that text again, not empty
text: it returns normally, with the same radius it leaves the container exactly
as the first call left it, with any radius it leaves as many children as the
trimmed original text has characters, and it registers one more rotation tween.
On its children the operation is idempotent. -/
theorem createCircularText_second_call (c : Element) (tw : List ContainerTween)
    (radius radius2 : ℚ) :
    ∃ c1 tw1, createCircularText ⟨some c, tw⟩ radius = .ok ⟨some c1, tw1⟩ ∧
      c1.textContent = trim c.textContent ∧
      createCircularText ⟨some c1, tw1⟩ radius =
        .ok ⟨some c1, tw1 ++ [⟨360, 15, "linear", -1, "50% 50%"⟩]⟩ ∧
      ∃ c2, createCircularText ⟨some c1, tw1⟩ radius2 =
          .ok ⟨some c2, tw1 ++ [⟨360, 15, "linear", -1, "50% 50%"⟩]⟩ ∧
        c2.childNodes.length = (trim c.textContent).length := by
  refine ⟨_, _, createCircularText_eq c tw radius, ?_, ?_, _, createCircularText_eq _ _ _, ?_⟩
  · simp only [Element.textContent, textContentOfList_circularSpans]
  · rw [createCircularText_eq]
    simp only [Element.textContent, textContentOfList_circularSpans, trim_trim]
  · simp only [length_circularSpans, Element.textContent, textContentOfList_circularSpans,
      trim_trim]

/-- C9, amended, at a container whose text is `AB` between two spaces. -/
theorem createCircularText_second_call_witness :
    ∃ c1 tw1, createCircularText ⟨some (textContainer " AB "), []⟩ 130 = .ok ⟨some c1, tw1⟩ ∧
      c1.textContent = trim (textContainer " AB ").textContent ∧
      createCircularText ⟨some c1, tw1⟩ 130 =
        .ok ⟨some c1, tw1 ++ [⟨360, 15, "linear", -1, "50% 50%"⟩]⟩ ∧
      ∃ c2, createCircularText ⟨some c1, tw1⟩ 100 =
          .ok ⟨some c2, tw1 ++ [⟨360, 15, "linear", -1, "50% 50%"⟩]⟩ ∧
        c2.childNodes.length = (trim (textContainer " AB ").textContent).length :=
  createCircularText_second_call (textContainer " AB ") [] 130 100

end Pepsi
